import Mathlib

/-!
Verification of the content-extraction and chat pipeline of the
website-scraper chatbot (`app.py`).

Python strings are embedded as `List Char` (`PyStr`), indexed by code
point exactly as Python indexes `str`.  The BeautifulSoup document is
embedded as a rose tree `Node` / `NodeList`; the fetch layer
(`requests.get` + `raise_for_status`) and the HTML parser are external
collaborators and enter the model as a `FetchOutcome` value describing
what they produced (network exception, or an HTTP status together with
the parser result for the body).  Everything from `parse_website`'s
post-fetch phase onwards is translated directly from the source.
-/

/-- Python `str` as a list of code points. -/
abbrev PyStr := List Char

/-- Build a `PyStr` from a Lean string literal. -/
def ofStr (s : String) : PyStr := s.data

/-- Python whitespace (the set recognised by `str.strip`, `str.split()`
and, for `str` patterns, the regex class `\s`). -/
def pyIsSpace (c : Char) : Bool :=
  c == ' ' || c == '\t' || c == '\n' || c == '\r' || c == '\x0b' || c == '\x0c' ||
  c == '\x1c' || c == '\x1d' || c == '\x1e' || c == '\x1f' || c == '\x85' || c == '\xa0' ||
  c == '\u1680' || (0x2000 ≤ c.toNat && c.toNat ≤ 0x200a) || c == '\u2028' || c == '\u2029' ||
  c == '\u202f' || c == '\u205f' || c == '\u3000'

/-- Line boundaries recognised by Python `str.splitlines`
(`\r\n` is handled as a single boundary in `splitlinesAux`). -/
def isLineBreak (c : Char) : Bool :=
  c == '\n' || c == '\r' || c == '\x0b' || c == '\x0c' ||
  c == '\x1c' || c == '\x1d' || c == '\x1e' || c == '\x85' || c == '\u2028' || c == '\u2029'

/-- Worker for `pySplitlines`; `acc` holds the current line reversed. -/
def splitlinesAux : List Char → List Char → List PyStr
  | [], acc => if acc.isEmpty then [] else [acc.reverse]
  | '\r' :: '\n' :: rest, acc => acc.reverse :: splitlinesAux rest []
  | c :: rest, acc =>
    if isLineBreak c then acc.reverse :: splitlinesAux rest []
    else splitlinesAux rest (c :: acc)

/-- Python `str.splitlines()`. -/
def pySplitlines (s : PyStr) : List PyStr := splitlinesAux s []

/-- Python `str.strip()` with no argument: remove whitespace at both ends. -/
def pyStrip (s : PyStr) : PyStr :=
  ((s.dropWhile pyIsSpace).reverse.dropWhile pyIsSpace).reverse

/-- Worker for `pySplitTwoSpace`: Python `str.split("  ")`, scanning
left to right for non-overlapping occurrences of two spaces. -/
def splitTwoSpaceAux : List Char → List Char → List PyStr
  | ' ' :: ' ' :: rest, acc => acc.reverse :: splitTwoSpaceAux rest []
  | c :: rest, acc => splitTwoSpaceAux rest (c :: acc)
  | [], acc => [acc.reverse]

/-- Python `line.split("  ")`. -/
def pySplitTwoSpace (s : PyStr) : List PyStr := splitTwoSpaceAux s []

/-- Python `sep.join(parts)`. -/
def joinSep (sep : PyStr) : List PyStr → PyStr
  | [] => []
  | [x] => x
  | x :: xs => x ++ sep ++ joinSep sep xs

/-- Worker for `collapseWS`; the flag records whether the previous
character was whitespace (so the run is already represented). -/
def collapseWSAux : Bool → List Char → List Char
  | _, [] => []
  | prevSpace, c :: rest =>
    if pyIsSpace c then
      if prevSpace then collapseWSAux true rest
      else ' ' :: collapseWSAux true rest
    else c :: collapseWSAux false rest

/-- Python `re.sub(r'\s+', ' ', s)`: every maximal whitespace run
becomes a single space. -/
def collapseWS (s : PyStr) : PyStr := collapseWSAux false s

/-- Worker for `pySplitWS`. -/
def splitWSAux : List Char → List Char → List PyStr
  | [], acc => if acc.isEmpty then [] else [acc.reverse]
  | c :: rest, acc =>
    if pyIsSpace c then
      if acc.isEmpty then splitWSAux rest [] else acc.reverse :: splitWSAux rest []
    else splitWSAux rest (c :: acc)

/-- Python `str.split()` with no argument: split on whitespace runs,
discarding empty tokens. -/
def pySplitWS (s : PyStr) : List PyStr := splitWSAux s []

/-- Python `str.upper()` (ASCII case mapping, which is all the
classifier patterns need). -/
def pyUpper (s : PyStr) : PyStr := s.map Char.toUpper

/-- Does `pat` begin `s`? -/
def beginsWith : PyStr → PyStr → Bool
  | [], _ => true
  | _ :: _, [] => false
  | c :: cs, d :: ds => c == d && beginsWith cs ds

/-- Python `pat in s`: does `pat` occur contiguously inside `s`? -/
def containsSub (pat : PyStr) : PyStr → Bool
  | [] => pat.isEmpty
  | c :: rest => beginsWith pat (c :: rest) || containsSub pat rest

/-- The whitespace clean-up of `parse_website` (lines 52-58 of
`app.py`): split into lines, strip each, split each line on double
spaces, strip each chunk, join the non-empty chunks with single
spaces, then collapse all remaining whitespace runs and strip. -/
def pyNormalize (raw : PyStr) : PyStr :=
  let lines := (pySplitlines raw).map pyStrip
  let chunks := (lines.flatMap pySplitTwoSpace).map pyStrip
  let joined := joinSep (ofStr " ") (chunks.filter (fun c => !c.isEmpty))
  pyStrip (collapseWS joined)

mutual
/-- An HTML element or text node of the BeautifulSoup tree. -/
inductive Node where
  | text (s : PyStr)
  | elem (tag : PyStr) (attrs : List (PyStr × PyStr)) (children : NodeList)
/-- A sequence of sibling nodes. -/
inductive NodeList where
  | nil
  | cons (n : Node) (ns : NodeList)
end

/-- Append two sibling sequences. -/
def appendNL : NodeList → NodeList → NodeList
  | NodeList.nil, r => r
  | NodeList.cons n ns, r => NodeList.cons n (appendNL ns r)

/-- The tags whose subtrees `parse_website` decomposes before any text
extraction (line 46 of `app.py`). -/
def removedTags : List PyStr :=
  [ofStr "script", ofStr "style", ofStr "nav", ofStr "footer", ofStr "header", ofStr "aside"]

mutual
/-- `soup([...]).decompose()` on one node: drop the node when its tag
is in `removedTags`, otherwise keep it and clean its children. -/
def decomposeNode : Node → NodeList
  | Node.text s => NodeList.cons (Node.text s) NodeList.nil
  | Node.elem t a cs =>
    if t ∈ removedTags then NodeList.nil
    else NodeList.cons (Node.elem t a (decomposeList cs)) NodeList.nil
/-- `decomposeNode` over a sibling sequence. -/
def decomposeList : NodeList → NodeList
  | NodeList.nil => NodeList.nil
  | NodeList.cons n ns => appendNL (decomposeNode n) (decomposeList ns)
end

mutual
/-- BeautifulSoup `get_text()` on one node: concatenate every text
node in document order, with no separator. -/
def getTextNode : Node → PyStr
  | Node.text s => s
  | Node.elem _ _ cs => getTextList cs
/-- `get_text()` over a sibling sequence. -/
def getTextList : NodeList → PyStr
  | NodeList.nil => []
  | NodeList.cons n ns => getTextNode n ++ getTextList ns
end

mutual
/-- BeautifulSoup `find_all` with a predicate on tag and attributes:
all matching elements in document (pre-)order. -/
def findElemsNode (p : PyStr → List (PyStr × PyStr) → Bool) : Node → List Node
  | Node.text _ => []
  | Node.elem t a cs => (if p t a then [Node.elem t a cs] else []) ++ findElemsList p cs
/-- `findElemsNode` over a sibling sequence. -/
def findElemsList (p : PyStr → List (PyStr × PyStr) → Bool) : NodeList → List Node
  | NodeList.nil => []
  | NodeList.cons n ns => findElemsNode p n ++ findElemsList p ns
end

mutual
/-- Every text-node string of a node, in document order. -/
def textNodesNode : Node → List PyStr
  | Node.text s => [s]
  | Node.elem _ _ cs => textNodesList cs
/-- `textNodesNode` over a sibling sequence. -/
def textNodesList : NodeList → List PyStr
  | NodeList.nil => []
  | NodeList.cons n ns => textNodesNode n ++ textNodesList ns
end

mutual
/-- The text-node strings of a node that lie outside every
removed-tag (`script`/`style`/`nav`/`footer`/`header`/`aside`) subtree. -/
def outsideTextsNode : Node → List PyStr
  | Node.text s => [s]
  | Node.elem t _ cs => if t ∈ removedTags then [] else outsideTextsList cs
/-- `outsideTextsNode` over a sibling sequence. -/
def outsideTextsList : NodeList → List PyStr
  | NodeList.nil => []
  | NodeList.cons n ns => outsideTextsNode n ++ outsideTextsList ns
end

mutual
/-- No element anywhere in this node carries a removed tag. -/
def cleanNode : Node → Bool
  | Node.text _ => true
  | Node.elem t _ cs => if t ∈ removedTags then false else cleanList cs
/-- `cleanNode` over a sibling sequence. -/
def cleanList : NodeList → Bool
  | NodeList.nil => true
  | NodeList.cons n ns => cleanNode n && cleanList ns
end

/-- Python `attrs.get(key, dflt)` on a BeautifulSoup attribute dict. -/
def attrGet (attrs : List (PyStr × PyStr)) (key dflt : PyStr) : PyStr :=
  match attrs.find? (fun kv => kv.1 == key) with
  | some kv => kv.2
  | none => dflt

/-- The extraction result dict of `parse_website` (lines 87-97 and
100-110 of `app.py`).  The error dict only populates `url`, `status`
and the error message; the remaining fields stay at their empty
defaults here. -/
structure PageContent where
  url : PyStr
  title : PyStr
  description : PyStr
  headings : List PyStr
  paragraphs : List PyStr
  content : PyStr
  wordCount : Nat
  charCount : Nat
  status : PyStr
  errorMessage : PyStr
deriving DecidableEq

/-- The `'success'` status string. -/
def successStatus : PyStr := ofStr "success"

/-- The `'error'` status string. -/
def errorStatus : PyStr := ofStr "error"

/-- The sentinel used when no `<title>` element is found. -/
def noTitle : PyStr := ofStr "No Title"

/-- `max_content_length` (line 83 of `app.py`). -/
def maxContentLength : Nat := 50000

/-- The literal appended when the normalized text is truncated. -/
def truncMarker : PyStr := ofStr "... [Content truncated]"

/-- Predicate matching `find_all(['h1','h2','h3','h4','h5','h6'])`. -/
def isHeadingTag (t : PyStr) : Bool :=
  t == ofStr "h1" || t == ofStr "h2" || t == ofStr "h3" ||
  t == ofStr "h4" || t == ofStr "h5" || t == ofStr "h6"

/-- `soup.find('title')`: text of the first `<title>` in the cleaned
tree, stripped; the sentinel when absent. -/
def titleOf (cleaned : NodeList) : PyStr :=
  match (findElemsList (fun t _ => t == ofStr "title") cleaned).head? with
  | some n => pyStrip (getTextNode n)
  | none => noTitle

/-- `soup.find('meta', attrs={'name': 'description'})` followed by
`.get('content', '').strip()`; empty when absent. -/
def descriptionOf (cleaned : NodeList) : PyStr :=
  match (findElemsList
      (fun t a => t == ofStr "meta" && attrGet a (ofStr "name") [] == ofStr "description")
      cleaned).head? with
  | some (Node.elem _ a _) => pyStrip (attrGet a (ofStr "content") [])
  | _ => []

/-- Lines 68-73 of `app.py`: stripped heading texts that are non-empty
and shorter than 200 characters, in document order (before the
final `[:20]` cap). -/
def headingsOf (cleaned : NodeList) : List PyStr :=
  ((findElemsList (fun t _ => isHeadingTag t) cleaned).map
    (fun n => pyStrip (getTextNode n))).filter
      (fun h => !h.isEmpty && h.length < 200)

/-- Lines 76-80 of `app.py`: stripped paragraph texts longer than 50
characters, in document order (before the final `[:30]` cap). -/
def paragraphsOf (cleaned : NodeList) : List PyStr :=
  ((findElemsList (fun t _ => t == ofStr "p") cleaned).map
    (fun n => pyStrip (getTextNode n))).filter
      (fun s => s.length > 50)

/-- The normalized full-page text before truncation: `get_text()` of
the decomposed tree fed through the clean-up of lines 52-58. -/
def normalizedText (doc : NodeList) : PyStr :=
  pyNormalize (getTextList (decomposeList doc))

/-- Lines 83-85 of `app.py`: cap the normalized text at
`max_content_length`, appending the marker when the cap is exceeded. -/
def truncatedContent (doc : NodeList) : PyStr :=
  if (normalizedText doc).length > maxContentLength then
    (normalizedText doc).take maxContentLength ++ truncMarker
  else normalizedText doc

/-- The post-fetch phase of `parse_website` (lines 43-97) on an
already-parsed document: decompose the removed-tag subtrees, then
extract title, description, headings, paragraphs and the normalized,
truncated content, with the counts computed from the stored text. -/
def extractDoc (url : PyStr) (doc : NodeList) : PageContent :=
  { url := url
    title := titleOf (decomposeList doc)
    description := descriptionOf (decomposeList doc)
    headings := (headingsOf (decomposeList doc)).take 20
    paragraphs := (paragraphsOf (decomposeList doc)).take 30
    content := truncatedContent doc
    wordCount := (pySplitWS (truncatedContent doc)).length
    charCount := (truncatedContent doc).length
    status := successStatus
    errorMessage := [] }

/-- What the external fetch-and-parse collaborators produced:
a `requests.RequestException` (network failure or timeout) with its
message, or an HTTP response with its status code, its status text
(used by `raise_for_status` in the `HTTPError` message) and the
BeautifulSoup result for the body, which is a document unless the
parser itself raised. -/
inductive FetchOutcome where
  | exn (msg : PyStr)
  | resp (status : Nat) (statusText : PyStr) (body : Except PyStr NodeList)

/-- The `timeout` argument passed to `requests.get` (line 40). -/
def requestTimeoutSeconds : Nat := 15

/-- `response.raise_for_status()` raises `HTTPError` exactly for 4xx
and 5xx status codes. -/
def raisesForStatus (status : Nat) : Bool := 400 ≤ status && status < 600

/-- The message head of the `requests.RequestException` handler. -/
def requestFailedIntro : PyStr := ofStr "Request failed: "

/-- The message head of the generic `Exception` handler. -/
def parsingFailedIntro : PyStr := ofStr "Parsing failed: "

/-- The error dict of lines 100-110 of `app.py`. -/
def errorPage (url msg : PyStr) : PageContent :=
  { url := url, title := [], description := [], headings := [], paragraphs := []
    content := [], wordCount := 0, charCount := 0
    status := errorStatus, errorMessage := msg }

/-- `parse_website` after the fetch layer has reported: a network
exception or a 4xx/5xx status lands in the `RequestException` handler,
a parser exception in the generic handler, and otherwise the document
is extracted. -/
def parseWebsite (url : PyStr) (fo : FetchOutcome) : PageContent :=
  match fo with
  | FetchOutcome.exn msg => errorPage url (requestFailedIntro ++ msg)
  | FetchOutcome.resp status statusText body =>
    if raisesForStatus status then errorPage url (requestFailedIntro ++ statusText)
    else
      match body with
      | Except.error msg => errorPage url (parsingFailedIntro ++ msg)
      | Except.ok doc => extractDoc url doc

/-- `parse_website` with the fetch layer as an oracle over attempt
numbers: the body calls `requests.get` exactly once, so only attempt 0
is consumed; the second component counts the fetch calls made. -/
def parseWebsiteOnce (url : PyStr) (fetch : Nat → FetchOutcome) : PageContent × Nat :=
  (parseWebsite url (fetch 0), 1)

/-- The mutable state of `GeminiWebsiteChatbot`: `self.content`,
`self.website_data` and whether `self.model` is configured (the
provider handle itself stays outside the embedding). -/
structure Chatbot where
  content : PyStr
  websiteData : PageContent
  model : Bool
deriving DecidableEq

/-- A `PageContent` with every field empty; the initial
`self.website_data = {}`. -/
def emptyPage : PageContent :=
  { url := [], title := [], description := [], headings := [], paragraphs := []
    content := [], wordCount := 0, charCount := 0, status := [], errorMessage := [] }

/-- `process_content` (lines 112-115): store the dict and its content. -/
def processContent (bot : Chatbot) (d : PageContent) : Chatbot :=
  { bot with websiteData := d, content := d.content }

/-- Line 120 of `app.py`. -/
def noModelMsg : PyStr := ofStr "❌ Gemini API is not configured. Please add your API key."

/-- Line 123 of `app.py`. -/
def noContentMsg : PyStr := ofStr "❌ No website content available. Please parse a website first!"

/-- Line 168 of `app.py`. -/
def invalidKeyMsg : PyStr := ofStr "❌ Invalid API key. Please check your Gemini API key."

/-- Line 170 of `app.py`. -/
def safetyBlockedMsg : PyStr := ofStr "⚠️ Response blocked by safety filters. Try rephrasing your question."

/-- Line 172 of `app.py`. -/
def quotaMsg : PyStr := ofStr "❌ API quota exceeded. Please try again later or check your Gemini API usage."

/-- The head of the generic provider-error message (line 174). -/
def genericErrorIntro : PyStr := ofStr "❌ Error generating response: "

/-- The classifier pattern `"API_KEY"`. -/
def apiKeyPat : PyStr := ofStr "API_KEY"

/-- The classifier pattern `"SAFETY"`. -/
def safetyPat : PyStr := ofStr "SAFETY"

/-- The classifier pattern `"QUOTA"`. -/
def quotaPat : PyStr := ofStr "QUOTA"

/-- Lines 165-174 of `app.py`: classify a provider error message by
case-insensitive substring inspection, in priority order. -/
def classifyError (e : PyStr) : PyStr :=
  if containsSub apiKeyPat (pyUpper e) then invalidKeyMsg
  else if containsSub safetyPat (pyUpper e) then safetyBlockedMsg
  else if containsSub quotaPat (pyUpper e) then quotaMsg
  else genericErrorIntro ++ e

/-- The context portion of the prompt f-string (lines 130-139):
title, URL and description lines, the first 10 headings bulleted, and
the first 10,000 characters of the stored content. -/
def contextCore (title url description : PyStr) (headings : List PyStr) (content : PyStr) : PyStr :=
  ofStr "Website Information:\n- Title: " ++ title ++
  ofStr "\n- URL: " ++ url ++
  ofStr "\n- Description: " ++ description ++
  ofStr "\n\nMain headings from the website:\n" ++
  joinSep (ofStr "\n") ((headings.take 10).map (fun h => ofStr "• " ++ h)) ++
  ofStr "\n\nWebsite Content:\n" ++
  content.take 10000

/-- The context block assembled from a stored `PageContent` (after
`process_content`, `self.content` equals the dict's content field). -/
def contextBlock (d : PageContent) : PyStr :=
  contextCore d.title d.url d.description d.headings d.content

/-- The full prompt f-string of lines 127-144. -/
def buildPrompt (bot : Chatbot) (query : PyStr) : PyStr :=
  ofStr "\nYou are an AI assistant that helps users understand and get information from website content. \n\n" ++
  contextCore bot.websiteData.title bot.websiteData.url bot.websiteData.description
    bot.websiteData.headings bot.content ++
  ofStr "  \n\nUser Question: " ++ query ++
  ofStr "\n\nPlease provide a helpful, accurate answer based on the website content above. If the information isn\x27t available in the content, say so clearly. Be conversational and helpful.\n"

/-- `generate_response` (lines 117-174) with the provider as an
oracle from prompts to either a response text or an exception message;
the second component counts provider calls.  The guards run in source
order: no model, then empty stored content. -/
def generateResponse (bot : Chatbot) (provider : PyStr → Except PyStr PyStr)
    (query : PyStr) : PyStr × Nat :=
  if bot.model = false then (noModelMsg, 0)
  else if bot.content.isEmpty then (noContentMsg, 0)
  else
    match provider (buildPrompt bot query) with
    | Except.ok t => (t, 1)
    | Except.error e => (classifyError e, 1)

/-- `parse_website` as a step on the chatbot state: its body never
assigns any `self` attribute, so the state passes through unchanged. -/
def parseWebsiteStep (bot : Chatbot) (url : PyStr) (fo : FetchOutcome) :
    Chatbot × PageContent :=
  (bot, parseWebsite url fo)

/-- The parse-button flow of `main` (lines 231-243): run
`parse_website`, and call `process_content` only when the returned
status is `'success'`. -/
def parseButtonFlow (bot : Chatbot) (url : PyStr) (fo : FetchOutcome) :
    Chatbot × PageContent :=
  let r := parseWebsiteStep bot url fo
  if r.2.status == successStatus then (processContent r.1 r.2, r.2) else r

theorem appendNL_nil : (l : NodeList) → appendNL l NodeList.nil = l
  | NodeList.nil => rfl
  | NodeList.cons n ns => by rw [appendNL, appendNL_nil ns]

theorem appendNL_assoc : (a b c : NodeList) →
    appendNL (appendNL a b) c = appendNL a (appendNL b c)
  | NodeList.nil, _, _ => rfl
  | NodeList.cons n ns, b, c => by rw [appendNL, appendNL, appendNL, appendNL_assoc ns b c]

theorem decomposeList_appendNL : (a b : NodeList) →
    decomposeList (appendNL a b) = appendNL (decomposeList a) (decomposeList b)
  | NodeList.nil, _ => rfl
  | NodeList.cons n ns, b => by
    rw [appendNL, decomposeList, decomposeList, decomposeList_appendNL ns b, appendNL_assoc]

mutual
theorem decomposeNode_idem : (n : Node) → decomposeList (decomposeNode n) = decomposeNode n
  | Node.text _ => rfl
  | Node.elem t a cs => by
    by_cases h : t ∈ removedTags
    · simp [decomposeNode, h, decomposeList]
    · simp [decomposeNode, h, decomposeList, appendNL_nil, appendNL, decomposeList_idem cs]
theorem decomposeList_idem : (l : NodeList) → decomposeList (decomposeList l) = decomposeList l
  | NodeList.nil => rfl
  | NodeList.cons n ns => by
    rw [decomposeList, decomposeList_appendNL, decomposeNode_idem n, decomposeList_idem ns]
end

theorem textNodesList_appendNL : (a b : NodeList) →
    textNodesList (appendNL a b) = textNodesList a ++ textNodesList b
  | NodeList.nil, _ => rfl
  | NodeList.cons n ns, b => by
    rw [appendNL, textNodesList, textNodesList, textNodesList_appendNL ns b, List.append_assoc]

mutual
theorem textNodes_decomposeNode : (n : Node) →
    textNodesList (decomposeNode n) = outsideTextsNode n
  | Node.text _ => rfl
  | Node.elem t a cs => by
    by_cases h : t ∈ removedTags
    · simp [decomposeNode, h, textNodesList, outsideTextsNode]
    · simp [decomposeNode, h, textNodesList, textNodesNode, outsideTextsNode,
        textNodes_decomposeList cs]
theorem textNodes_decomposeList : (l : NodeList) →
    textNodesList (decomposeList l) = outsideTextsList l
  | NodeList.nil => rfl
  | NodeList.cons n ns => by
    rw [decomposeList, textNodesList_appendNL, textNodes_decomposeNode n,
      textNodes_decomposeList ns, outsideTextsList]
end

theorem cleanList_appendNL : (a b : NodeList) →
    cleanList (appendNL a b) = (cleanList a && cleanList b)
  | NodeList.nil, _ => by rw [appendNL, cleanList, Bool.true_and]
  | NodeList.cons n ns, b => by
    rw [appendNL, cleanList, cleanList, cleanList_appendNL ns b, Bool.and_assoc]

mutual
theorem clean_decomposeNode : (n : Node) → cleanList (decomposeNode n) = true
  | Node.text _ => rfl
  | Node.elem t a cs => by
    by_cases h : t ∈ removedTags
    · simp [decomposeNode, h, cleanList]
    · simp [decomposeNode, h, cleanList, cleanNode, clean_decomposeList cs]
theorem clean_decomposeList : (l : NodeList) → cleanList (decomposeList l) = true
  | NodeList.nil => rfl
  | NodeList.cons n ns => by
    rw [decomposeList, cleanList_appendNL, clean_decomposeNode n, clean_decomposeList ns,
      Bool.and_self]
end

theorem beginsWith_append : (l r : PyStr) → beginsWith l (l ++ r) = true
  | [], _ => rfl
  | c :: cs, r => by rw [List.cons_append, beginsWith, beginsWith_append cs r,
    beq_self_eq_true, Bool.true_and]

theorem containsSub_head (x b : PyStr) : containsSub x (x ++ b) = true := by
  match x, b with
  | [], [] => rfl
  | [], c :: rest => rfl
  | c :: cs, b =>
    rw [List.cons_append, containsSub, ← List.cons_append, beginsWith_append, Bool.true_or]

theorem containsSub_self (x : PyStr) : containsSub x x = true := by
  have h := containsSub_head x []
  rwa [List.append_nil] at h

theorem containsSub_skip (x a h : PyStr) (hh : containsSub x h = true) :
    containsSub x (a ++ h) = true := by
  induction a with
  | nil => rwa [List.nil_append]
  | cons c cs ih => rw [List.cons_append, containsSub, ih, Bool.or_true]

/-- Length of the bulleted-headings block: each entry contributes its
own length plus the two bullet characters, separated by newlines. -/
theorem bulletJoin_len (hs : List PyStr) :
    (joinSep (ofStr "\n") (hs.map (fun h => ofStr "• " ++ h))).length ≤
      (hs.map List.length).sum + 3 * hs.length := by
  induction hs with
  | nil => simp [joinSep]
  | cons x xs ih =>
    cases xs with
    | nil => simp [joinSep, ofStr]
    | cons y ys =>
      have hj : joinSep (ofStr "\n") ((x :: y :: ys).map (fun h => ofStr "• " ++ h)) =
          (ofStr "• " ++ x) ++ ofStr "\n" ++
            joinSep (ofStr "\n") ((y :: ys).map (fun h => ofStr "• " ++ h)) := rfl
      rw [hj]
      simp only [List.length_append, List.map_cons, List.sum_cons, List.length_cons] at ih ⊢
      have hb : (ofStr "• ").length = 2 := rfl
      have hn : (ofStr "\n").length = 1 := rfl
      omega

/-- Claim C1: for every fetch outcome (including a malformed body that
makes the parser itself raise), `parse_website`'s post-fetch phase
returns a record whose status is `'success'` or `'error'`; on error
the message starts with the transport head `"Request failed: "` or the
parse head `"Parsing failed: "`, and the two heads are distinct. -/
theorem claim_C1 (url : PyStr) (fo : FetchOutcome) :
    ((parseWebsite url fo).status = successStatus ∨
      ((parseWebsite url fo).status = errorStatus ∧
        ((∃ rest, (parseWebsite url fo).errorMessage = requestFailedIntro ++ rest) ∨
         (∃ rest, (parseWebsite url fo).errorMessage = parsingFailedIntro ++ rest)))) ∧
    requestFailedIntro ≠ parsingFailedIntro := by
  refine ⟨?_, by decide⟩
  match fo with
  | FetchOutcome.exn msg => exact Or.inr ⟨rfl, Or.inl ⟨msg, rfl⟩⟩
  | FetchOutcome.resp status stext body =>
    by_cases h : raisesForStatus status = true
    · simp only [parseWebsite, h, if_true]
      exact Or.inr ⟨rfl, Or.inl ⟨stext, rfl⟩⟩
    · match body with
      | Except.error msg =>
        simp only [parseWebsite, h, if_false]
        exact Or.inr ⟨rfl, Or.inr ⟨msg, rfl⟩⟩
      | Except.ok doc =>
        simp only [parseWebsite, h, if_false]
        exact Or.inl rfl

/-- Claim C2: every successful extraction keeps at most 20 headings
and 30 paragraphs, the stored content never exceeds the 50,000-character
cap plus the marker length, and the word and character counts are
computed from the stored (post-truncation) content. -/
theorem claim_C2 (url : PyStr) (doc : NodeList) :
    (extractDoc url doc).headings.length ≤ 20 ∧
    (extractDoc url doc).paragraphs.length ≤ 30 ∧
    (extractDoc url doc).content.length ≤ maxContentLength + truncMarker.length ∧
    (extractDoc url doc).wordCount = (pySplitWS (extractDoc url doc).content).length ∧
    (extractDoc url doc).charCount = (extractDoc url doc).content.length := by
  refine ⟨?_, ?_, ?_, by simp only [extractDoc], by simp only [extractDoc]⟩
  · simpa only [extractDoc] using List.length_take_le 20 (headingsOf (decomposeList doc))
  · simpa only [extractDoc] using List.length_take_le 30 (paragraphsOf (decomposeList doc))
  · simp only [extractDoc]
    unfold truncatedContent
    by_cases h : (normalizedText doc).length > maxContentLength
    · rw [if_pos h, List.length_append]
      have ht := List.length_take_le maxContentLength (normalizedText doc)
      omega
    · rw [if_neg h]
      omega

/-- Claim C3: text sitting only inside `script`/`style`/`nav`/`footer`/
`header`/`aside` subtrees never reaches the extraction: the decomposed
tree that every extraction step reads keeps exactly the text nodes
lying outside those subtrees (so such a string is not among them), the
decomposed tree contains no removed-tag element at all, and extraction
gives the same `PageContent` as it does on the already-scrubbed
document — the removed subtrees contribute nothing to `content`,
`headings` or `paragraphs`. -/
theorem claim_C3 (url : PyStr) (doc : NodeList) (s : PyStr)
    (_h1 : s ∈ textNodesList doc) (h2 : s ∉ outsideTextsList doc) :
    s ∉ textNodesList (decomposeList doc) ∧
    cleanList (decomposeList doc) = true ∧
    extractDoc url doc = extractDoc url (decomposeList doc) := by
  refine ⟨?_, clean_decomposeList doc, ?_⟩
  · rw [textNodes_decomposeList]
    exact h2
  · simp only [extractDoc, truncatedContent, normalizedText, decomposeList_idem]

/-- A document whose visible text is exactly the truncation marker. -/
def markerDoc : NodeList :=
  NodeList.cons (Node.text (ofStr "... [Content truncated]")) NodeList.nil

/-- Claim C4 counterexample: the marker occurs in the stored content of
`markerDoc` even though its normalized pre-truncation text (23
characters) never exceeded the 50,000-character cap, so marker presence
is not sufficient evidence of truncation. -/
theorem claim_C4_cex :
    ¬ (containsSub truncMarker (extractDoc [] markerDoc).content = true →
        (normalizedText markerDoc).length > maxContentLength) := by decide

/-- Claim C4 as amended: the stored content carries the appended marker
exactly when the normalized pre-truncation text exceeds 50,000
characters, in which case it is the first 50,000 characters followed by
the literal marker (which therefore occurs in it); otherwise the
content is the normalized text unchanged, so the marker can still
occur when the page text itself contains it. -/
theorem claim_C4 (url : PyStr) (doc : NodeList) :
    (extractDoc url doc).content =
      (if (normalizedText doc).length > maxContentLength then
        (normalizedText doc).take maxContentLength ++ truncMarker
      else normalizedText doc) ∧
    containsSub truncMarker
      ((normalizedText doc).take maxContentLength ++ truncMarker) = true :=
  ⟨by simp only [extractDoc, truncatedContent],
   containsSub_skip _ _ _ (containsSub_self truncMarker)⟩

/-- A provider oracle that always answers; used to instantiate the
response-generation theorems. -/
def probeProvider : PyStr → Except PyStr PyStr := fun _ => Except.ok (ofStr "answer")

/-- A fresh chatbot: no model, nothing parsed. -/
def botBlank : Chatbot := { content := [], websiteData := emptyPage, model := false }

/-- A chatbot with a configured model but nothing parsed. -/
def botModelOnly : Chatbot := { content := [], websiteData := emptyPage, model := true }

/-- A chatbot with a configured model and stored content. -/
def botReady : Chatbot := { content := ofStr "text", websiteData := emptyPage, model := true }

/-- Claim C5: `generate_response` checks its preconditions in order
with first match winning — no configured model returns the
configuration-error message with zero provider calls; a model but no
stored content returns the context-missing message with zero provider
calls; only when both hold is the provider called (exactly once), its
answer returned verbatim on success and classified on failure. -/
theorem claim_C5 (bot : Chatbot) (provider : PyStr → Except PyStr PyStr) (query : PyStr) :
    (bot.model = false → generateResponse bot provider query = (noModelMsg, 0)) ∧
    (bot.model = true → bot.content = [] →
      generateResponse bot provider query = (noContentMsg, 0)) ∧
    (bot.model = true → bot.content ≠ [] →
      (generateResponse bot provider query).2 = 1 ∧
      generateResponse bot provider query =
        ((match provider (buildPrompt bot query) with
          | Except.ok t => t
          | Except.error e => classifyError e), 1)) := by
  refine ⟨?_, ?_, ?_⟩
  · intro hm
    simp [generateResponse, hm]
  · intro hm hc
    simp [generateResponse, hm, hc]
  · intro hm hc
    have hne : bot.content.isEmpty = false := by
      cases hcc : bot.content with
      | nil => exact absurd hcc hc
      | cons a l => rfl
    have hg : generateResponse bot provider query =
        ((match provider (buildPrompt bot query) with
          | Except.ok t => t
          | Except.error e => classifyError e), 1) := by
      simp only [generateResponse, hm, hne]
      cases provider (buildPrompt bot query) <;> simp
    exact ⟨by rw [hg], hg⟩

/-- Claim C5 witness: the three branches at concrete chatbot states. -/
theorem claim_C5_witness :
    generateResponse botBlank probeProvider (ofStr "hi") = (noModelMsg, 0) ∧
    generateResponse botModelOnly probeProvider (ofStr "hi") = (noContentMsg, 0) ∧
    generateResponse botReady probeProvider (ofStr "hi") = (ofStr "answer", 1) :=
  ⟨(claim_C5 botBlank probeProvider (ofStr "hi")).1 rfl,
   (claim_C5 botModelOnly probeProvider (ofStr "hi")).2.1 rfl rfl,
   ((claim_C5 botReady probeProvider (ofStr "hi")).2.2 rfl (by decide)).2⟩

/-- Claim C6: the provider-error classifier tests the upper-cased
message for `"API_KEY"`, then `"SAFETY"`, then `"QUOTA"`, in that
priority order, falling back to a generic message echoing the error
text; in particular `"Error: invalid API_KEY provided"` is classified
as a credential error in any letter case. -/
theorem claim_C6 (e : PyStr) :
    (containsSub apiKeyPat (pyUpper e) = true → classifyError e = invalidKeyMsg) ∧
    (containsSub apiKeyPat (pyUpper e) = false →
      containsSub safetyPat (pyUpper e) = true → classifyError e = safetyBlockedMsg) ∧
    (containsSub apiKeyPat (pyUpper e) = false →
      containsSub safetyPat (pyUpper e) = false →
      containsSub quotaPat (pyUpper e) = true → classifyError e = quotaMsg) ∧
    (containsSub apiKeyPat (pyUpper e) = false →
      containsSub safetyPat (pyUpper e) = false →
      containsSub quotaPat (pyUpper e) = false →
      classifyError e = genericErrorIntro ++ e) ∧
    classifyError (ofStr "Error: invalid API_KEY provided") = invalidKeyMsg ∧
    classifyError (ofStr "error: invalid api_key provided") = invalidKeyMsg := by
  refine ⟨?_, ?_, ?_, ?_, by decide, by decide⟩
  · intro h
    simp [classifyError, h]
  · intro h1 h2
    simp [classifyError, h1, h2]
  · intro h1 h2 h3
    simp [classifyError, h1, h2, h3]
  · intro h1 h2 h3
    simp [classifyError, h1, h2, h3]

/-- Claim C6 witness: one concrete message per classifier branch. -/
theorem claim_C6_witness :
    classifyError (ofStr "bad API_KEY") = invalidKeyMsg ∧
    classifyError (ofStr "Safety block") = safetyBlockedMsg ∧
    classifyError (ofStr "quota exceeded") = quotaMsg ∧
    classifyError (ofStr "boom") = genericErrorIntro ++ ofStr "boom" :=
  ⟨(claim_C6 (ofStr "bad API_KEY")).1 (by decide),
   (claim_C6 (ofStr "Safety block")).2.1 (by decide) (by decide),
   (claim_C6 (ofStr "quota exceeded")).2.2.1 (by decide) (by decide) (by decide),
   (claim_C6 (ofStr "boom")).2.2.2.1 (by decide) (by decide) (by decide)⟩

/-- Claim C7 counterexample: an HTTP 304 response is not 2xx, yet
`raise_for_status` only raises for 4xx/5xx, so `parse_website`
proceeds to a successful extraction instead of a transport error. -/
theorem claim_C7_cex :
    (parseWebsite [] (FetchOutcome.resp 304 [] (Except.ok NodeList.nil))).status
      = successStatus ∧
    (parseWebsite [] (FetchOutcome.resp 304 [] (Except.ok NodeList.nil))).status
      ≠ errorStatus := by
  decide

/-- Claim C7 as amended: the fetch timeout is 15 seconds, exactly one
fetch attempt is made (the result depends only on attempt 0 and the
fetch-call counter is 1), and any network failure or any HTTP status
in 400..599 — rather than any non-2xx status — yields a transport
error surfaced as an error record whose message carries the underlying
cause behind the `"Request failed: "` head. -/
theorem claim_C7 (url : PyStr) (fetch fetch2 : Nat → FetchOutcome) (h : fetch 0 = fetch2 0) :
    parseWebsiteOnce url fetch = parseWebsiteOnce url fetch2 ∧
    (parseWebsiteOnce url fetch).2 = 1 ∧
    requestTimeoutSeconds = 15 ∧
    (∀ msg, fetch 0 = FetchOutcome.exn msg →
      (parseWebsiteOnce url fetch).1 = errorPage url (requestFailedIntro ++ msg)) ∧
    (∀ status stext body, fetch 0 = FetchOutcome.resp status stext body →
      400 ≤ status → status < 600 →
      (parseWebsiteOnce url fetch).1 = errorPage url (requestFailedIntro ++ stext)) := by
  refine ⟨by simp only [parseWebsiteOnce, h], rfl, rfl, ?_, ?_⟩
  · intro msg hm
    simp only [parseWebsiteOnce, hm, parseWebsite]
  · intro status stext body hr h4 h6
    have hb : raisesForStatus status = true := by
      simp only [raisesForStatus, Bool.and_eq_true, decide_eq_true_eq]
      omega
    simp [parseWebsiteOnce, hr, parseWebsite, hb]

/-- A fetch oracle that reports a network failure on every attempt. -/
def fetchDown : Nat → FetchOutcome := fun _ => FetchOutcome.exn (ofStr "timed out")

/-- A fetch oracle that yields an HTTP 404 with an empty body. -/
def fetchNotFound : Nat → FetchOutcome :=
  fun _ => FetchOutcome.resp 404 (ofStr "404 Client Error") (Except.ok NodeList.nil)

/-- Claim C7 witness: the transport-error branches at concrete fetch
outcomes, and the single-call counter. -/
theorem claim_C7_witness :
    (parseWebsiteOnce [] fetchDown).1 =
      errorPage [] (requestFailedIntro ++ ofStr "timed out") ∧
    (parseWebsiteOnce [] fetchNotFound).1 =
      errorPage [] (requestFailedIntro ++ ofStr "404 Client Error") ∧
    (parseWebsiteOnce [] fetchDown).2 = 1 :=
  ⟨(claim_C7 [] fetchDown fetchDown rfl).2.2.2.1 (ofStr "timed out") rfl,
   (claim_C7 [] fetchNotFound fetchNotFound rfl).2.2.2.2 404 (ofStr "404 Client Error")
     (Except.ok NodeList.nil) rfl (by decide) (by decide),
   (claim_C7 [] fetchDown fetchDown rfl).2.1⟩

/-- Claim C8: the context block contains the title, URL, description,
the bulleted first 10 headings and the first 10,000 characters of the
content; it coincides with the block built from only those bounded
pieces (everything beyond is silently omitted), and its length is
bounded by the non-content fields plus a constant — independently of
the length of `content`. -/
theorem claim_C8 (d : PageContent) :
    containsSub d.title (contextBlock d) = true ∧
    containsSub d.url (contextBlock d) = true ∧
    containsSub d.description (contextBlock d) = true ∧
    containsSub (d.content.take 10000) (contextBlock d) = true ∧
    contextBlock d =
      contextCore d.title d.url d.description (d.headings.take 10) (d.content.take 10000) ∧
    (contextBlock d).length ≤
      d.title.length + d.url.length + d.description.length +
        ((d.headings.take 10).map List.length).sum + 10137 := by
  refine ⟨?_, ?_, ?_, ?_, ?_, ?_⟩
  · simp only [contextBlock, contextCore, List.append_assoc]
    exact containsSub_skip _ _ _ (containsSub_head _ _)
  · simp only [contextBlock, contextCore, List.append_assoc]
    exact containsSub_skip _ _ _ (containsSub_skip _ _ _
      (containsSub_skip _ _ _ (containsSub_head _ _)))
  · simp only [contextBlock, contextCore, List.append_assoc]
    exact containsSub_skip _ _ _ (containsSub_skip _ _ _ (containsSub_skip _ _ _
      (containsSub_skip _ _ _ (containsSub_skip _ _ _ (containsSub_head _ _)))))
  · simp only [contextBlock, contextCore, List.append_assoc]
    exact containsSub_skip _ _ _ (containsSub_skip _ _ _ (containsSub_skip _ _ _
      (containsSub_skip _ _ _ (containsSub_skip _ _ _ (containsSub_skip _ _ _
        (containsSub_skip _ _ _ (containsSub_skip _ _ _ (containsSub_skip _ _ _
          (containsSub_self _)))))))))
  · simp only [contextBlock, contextCore, List.take_take, Nat.min_self]
  · simp only [contextBlock, contextCore, List.length_append]
    have h1 : (ofStr "Website Information:\n- Title: ").length = 30 := by decide
    have h2 : (ofStr "\n- URL: ").length = 8 := by decide
    have h3 : (ofStr "\n- Description: ").length = 16 := by decide
    have h4 : (ofStr "\n\nMain headings from the website:\n").length = 34 := by decide
    have h5 : (ofStr "\n\nWebsite Content:\n").length = 19 := by decide
    have hb := bulletJoin_len (d.headings.take 10)
    have hh : (d.headings.take 10).length ≤ 10 := List.length_take_le 10 _
    have hc : (d.content.take 10000).length ≤ 10000 := List.length_take_le 10000 _
    omega

/-- Claim C9: a parse can succeed with an empty normalized text, and
then — credentials configured or not — every query is answered with
the context-missing message and zero provider calls, because the
`if not self.content` guard cannot tell an empty parsed page from no
parse at all. -/
theorem claim_C9 (bot : Chatbot) (url : PyStr) (doc : NodeList)
    (provider : PyStr → Except PyStr PyStr) (query : PyStr)
    (hm : bot.model = true) (hc : (extractDoc url doc).content = []) :
    (extractDoc url doc).status = successStatus ∧
    generateResponse (processContent bot (extractDoc url doc)) provider query =
      (noContentMsg, 0) := by
  constructor
  · simp only [extractDoc]
  · simp [generateResponse, processContent, hm, hc]

/-- Claim C9 witness: the empty document parses successfully to empty
content, after which generation reports missing context. -/
theorem claim_C9_witness :
    botModelOnly.model = true ∧
    (extractDoc [] NodeList.nil).content = [] ∧
    ((extractDoc [] NodeList.nil).status = successStatus ∧
      generateResponse (processContent botModelOnly (extractDoc [] NodeList.nil))
        probeProvider (ofStr "hi") = (noContentMsg, 0)) :=
  ⟨rfl, by decide,
   claim_C9 botModelOnly [] NodeList.nil probeProvider (ofStr "hi") rfl (by decide)⟩

/-- Claim C10: `parse_website` passes the chatbot state through
untouched; the parse-button flow leaves the stored state exactly as it
was whenever the parse result is not a success, updates it through
`process_content` exactly on success, and never changes the model
configuration. -/
theorem claim_C10 (bot : Chatbot) (url : PyStr) (fo : FetchOutcome) :
    (parseWebsiteStep bot url fo).1 = bot ∧
    ((parseWebsite url fo).status ≠ successStatus →
      parseButtonFlow bot url fo = (bot, parseWebsite url fo)) ∧
    ((parseWebsite url fo).status = successStatus →
      parseButtonFlow bot url fo =
        (processContent bot (parseWebsite url fo), parseWebsite url fo)) ∧
    (parseButtonFlow bot url fo).1.model = bot.model := by
  refine ⟨rfl, ?_, ?_, ?_⟩
  · intro h
    have hb : ((parseWebsite url fo).status == successStatus) = false := by
      simpa using h
    simp [parseButtonFlow, parseWebsiteStep, hb]
  · intro h
    have hb : ((parseWebsite url fo).status == successStatus) = true := by
      simpa using h
    simp [parseButtonFlow, parseWebsiteStep, hb]
  · by_cases h : ((parseWebsite url fo).status == successStatus) = true
    · simp [parseButtonFlow, parseWebsiteStep, h, processContent]
    · simp [parseButtonFlow, parseWebsiteStep, h]

/-- A network failure outcome for the flow witness. -/
def fetchBoom : FetchOutcome := FetchOutcome.exn (ofStr "connection refused")

/-- A successful empty-body outcome for the flow witness. -/
def fetchOkEmpty : FetchOutcome := FetchOutcome.resp 200 [] (Except.ok NodeList.nil)

/-- Claim C10 witness: a failed parse leaves a concrete state intact;
a successful one routes through `process_content`. -/
theorem claim_C10_witness :
    (parseWebsite [] fetchBoom).status ≠ successStatus ∧
    parseButtonFlow botReady [] fetchBoom = (botReady, parseWebsite [] fetchBoom) ∧
    (parseWebsite [] fetchOkEmpty).status = successStatus ∧
    parseButtonFlow botBlank [] fetchOkEmpty =
      (processContent botBlank (parseWebsite [] fetchOkEmpty), parseWebsite [] fetchOkEmpty) :=
  ⟨by decide, (claim_C10 botReady [] fetchBoom).2.1 (by decide),
   by decide, (claim_C10 botBlank [] fetchOkEmpty).2.2.1 (by decide)⟩

/-- A document whose `<nav>` subtree holds `"Home"` while `"Hi"` is
visible text. -/
def navDoc : NodeList :=
  NodeList.cons
    (Node.elem (ofStr "nav") [] (NodeList.cons (Node.text (ofStr "Home")) NodeList.nil))
    (NodeList.cons (Node.text (ofStr "Hi")) NodeList.nil)

/-- Claim C3 witness: `"Home"` sits only inside a `<nav>` subtree of
this document and is gone from everything extraction reads. -/
theorem claim_C3_witness :
    ofStr "Home" ∈ textNodesList navDoc ∧
    ofStr "Home" ∉ outsideTextsList navDoc ∧
    (ofStr "Home" ∉ textNodesList (decomposeList navDoc) ∧
      cleanList (decomposeList navDoc) = true ∧
      extractDoc [] navDoc = extractDoc [] (decomposeList navDoc)) :=
  ⟨by decide, by decide, claim_C3 [] navDoc (ofStr "Home") (by decide) (by decide)⟩
